import Mathlib

/-!
# Verification of the rsnmp SNMP client

Shallow embedding of the rsnmp sources (`src/types.rs`, `src/pdu.rs`,
`src/client.rs`, `src/bin/main.rs`).  The codec in the source delegates raw
BER emission and parsing to the external `rasn` crate; the BER primitives
below (tag-length-value framing, definite lengths, minimal twos-complement
integers, base-128 object-identifier sub-identifiers) model those `rasn`
calls as standard BER, pinned by the reference encodings asserted in the
test modules of the repository itself.
-/

namespace Rsnmp

set_option autoImplicit false

/-! ## Tags -/

/-- Tag classes of `rasn::types::Class`. -/
inductive TagClass
  | universal
  | application
  | context
  | priv
deriving DecidableEq

/-- Model of `rasn::Tag`: a class together with a tag number (the constructed bit is
not part of the tag value, mirroring `rasn`). -/
structure Tag where
  cls : TagClass
  num : Nat
deriving DecidableEq

/-- Constructor `Tag::new(class, num)`. -/
def Tag.new (c : TagClass) (n : Nat) : Tag := ⟨c, n⟩

/-- Numeric base of a tag class in the identifier octet. -/
def TagClass.base : TagClass → Nat
  | .universal => 0
  | .application => 64
  | .context => 128
  | .priv => 192

/-- The tag `Tag::NULL` (universal 5). -/
def tagNull : Tag := Tag.new .universal 5

/-- The tag `Tag::OBJECT_IDENTIFIER` (universal 6). -/
def tagObjectId : Tag := Tag.new .universal 6

/-- The tag `Tag::INTEGER` (universal 2). -/
def tagInteger : Tag := Tag.new .universal 2

/-- The tag `Tag::OCTET_STRING` (universal 4). -/
def tagOctetString : Tag := Tag.new .universal 4

/-- The tag `Tag::SEQUENCE` (universal 16). -/
def tagSequence : Tag := Tag.new .universal 16

/-- types.rs:10 `TAG_IPADDR = Tag::new(Class::Application, 0)`. -/
def TAG_IPADDR : Tag := Tag.new .application 0

/-- types.rs:11 `TAG_COUNTER32 = Tag::new(Class::Application, 1)`. -/
def TAG_COUNTER32 : Tag := Tag.new .application 1

/-- types.rs:12 `TAG_GAUGE32 = Tag::new(Class::Application, 2)`. -/
def TAG_GAUGE32 : Tag := Tag.new .application 2

/-- types.rs:13 `TAG_TIMETICKS = Tag::new(Class::Application, 3)`. -/
def TAG_TIMETICKS : Tag := Tag.new .application 3

/-- types.rs:14 `TAG_OPAQUE = Tag::new(Class::Application, 4)`. -/
def TAG_OPAQUE : Tag := Tag.new .application 4

/-- types.rs:15 `TAG_COUNTER64 = Tag::new(Class::Application, 6)`. -/
def TAG_COUNTER64 : Tag := Tag.new .application 6

/-- types.rs:16 `TAG_NOSUCHOBJECT = Tag::new(Class::Context, 0)`. -/
def TAG_NOSUCHOBJECT : Tag := Tag.new .context 0

/-- types.rs:17 `TAG_NOSUCHINSTANCE = Tag::new(Class::Context, 1)`. -/
def TAG_NOSUCHINSTANCE : Tag := Tag.new .context 1

/-- types.rs:18 `TAG_ENDOFMIBVIEW = Tag::new(Class::Context, 2)`. -/
def TAG_ENDOFMIBVIEW : Tag := Tag.new .context 2

/-- pdu.rs:7 `TAG_MSG_GET = Tag::new(Class::Context, 0)`. -/
def TAG_MSG_GET : Tag := Tag.new .context 0

/-- pdu.rs:8 `TAG_MSG_GETNEXT`. -/
def TAG_MSG_GETNEXT : Tag := Tag.new .context 1

/-- pdu.rs:9 `TAG_MSG_RESPONSE`. -/
def TAG_MSG_RESPONSE : Tag := Tag.new .context 2

/-- pdu.rs:10 `TAG_MSG_SET`. -/
def TAG_MSG_SET : Tag := Tag.new .context 3

/-- pdu.rs:11 `TAG_MSG_TRAPV1`. -/
def TAG_MSG_TRAPV1 : Tag := Tag.new .context 4

/-- pdu.rs:12 `TAG_MSG_GETBULK`. -/
def TAG_MSG_GETBULK : Tag := Tag.new .context 5

/-- pdu.rs:13 `TAG_MSG_INFORM`. -/
def TAG_MSG_INFORM : Tag := Tag.new .context 6

/-- pdu.rs:14 `TAG_MSG_TRAPV2`. -/
def TAG_MSG_TRAPV2 : Tag := Tag.new .context 7

/-- pdu.rs:15 `TAG_MSG_REPORT`. -/
def TAG_MSG_REPORT : Tag := Tag.new .context 8

/-! ## BER primitive encoders (model of the `rasn` BER backend) -/

/-- Big-endian base-256 digits, fuel-bounded so the kernel can evaluate it
(16 octets cover every integer this codec ever emits). -/
def natBytesBEAux : Nat → Nat → List Nat
  | 0, _ => []
  | fuel + 1, n => if n < 256 then [n] else natBytesBEAux fuel (n / 256) ++ [n % 256]

/-- Minimal big-endian octets of a natural number. -/
def natBytesBE (n : Nat) : List Nat := natBytesBEAux 16 n

/-- BER definite length octets (short form below 128, long form above). -/
def berLen (n : Nat) : List Nat :=
  if n < 128 then [n] else (128 + (natBytesBE n).length) :: natBytesBE n

/-- Smallest octet count `k` such that `i` fits in `k` twos-complement
octets (fuel-bounded search starting at the given `k`). -/
def intLenAux : Nat → Nat → Int → Nat
  | 0, k, _ => k
  | fuel + 1, k, i =>
    if -((2 : Int) ^ (8 * k - 1)) ≤ i ∧ i < (2 : Int) ^ (8 * k - 1) then k
    else intLenAux fuel (k + 1) i

/-- Octet count of the minimal twos-complement encoding of `i`. -/
def intLen (i : Int) : Nat := intLenAux 16 1 i

/-- Exactly `k` big-endian base-256 digits of `n`. -/
def natBEFixed : Nat → Nat → List Nat
  | 0, _ => []
  | k + 1, n => natBEFixed k (n / 256) ++ [n % 256]

/-- Content octets of a BER INTEGER: minimal twos complement, big-endian.
Models the `rasn` integer content encoding (`i32`/`u32`/`u64::encode_with_tag`). -/
def intBytes (i : Int) : List Nat :=
  natBEFixed (intLen i) ((i % ((2 : Int) ^ (8 * intLen i))).toNat)

/-- Content octets of an unsigned integer (`u32`/`u64`), encoded as a
non-negative BER INTEGER. -/
def uintBytes (n : Nat) : List Nat := intBytes (Int.ofNat n)

/-- A primitive tag-length-value triplet. -/
def encTLVp (t : Tag) (content : List Nat) : List Nat :=
  (t.cls.base + t.num) :: berLen content.length ++ content

/-- A constructed tag-length-value triplet (`encoder.encode_sequence`). -/
def encTLVc (t : Tag) (content : List Nat) : List Nat :=
  (t.cls.base + 32 + t.num) :: berLen content.length ++ content

/-- Higher base-128 groups of an OID sub-identifier, continuation bit set. -/
def base128Aux : Nat → Nat → List Nat → List Nat
  | 0, _, acc => acc
  | fuel + 1, n, acc =>
    if n = 0 then acc else base128Aux fuel (n / 128) ((128 + n % 128) :: acc)

/-- Base-128 encoding of one OID sub-identifier (high bit on every octet but
the last). -/
def base128 (n : Nat) : List Nat :=
  if n < 128 then [n] else base128Aux 16 (n / 128) [n % 128]

/-- Content octets of an OBJECT IDENTIFIER: the first two sub-identifiers
packed as `40*a+b`, the rest base-128. -/
def oidContent : List Nat → List Nat
  | [] => []
  | [a] => base128 (40 * a)
  | a :: b :: rest => base128 (40 * a + b) ++ (rest.map base128).flatten

/-! ## Value (types.rs) -/

/-- types.rs:31-38 `TimeTicks(u32)`. -/
structure TimeTicks where
  ticks : Nat
deriving DecidableEq

/-- An IPv4 address as its four dotted-quad octets, `a.b.c.d`
(`std::net::Ipv4Addr`). -/
structure Ipv4Addr where
  a : Nat
  b : Nat
  c : Nat
  d : Nat
deriving DecidableEq

/-- types.rs:97-99 `ip_to_bytes`:
`u32::from_ne_bytes(addr.octets()).to_be_bytes()`.  On the little-endian
hosts the repository test suite assumes (its tests assert that
`IpAddr(10.0.0.1)` encodes with content `[1,0,0,10]`), the native-endian
reinterpretation reverses the four octets. -/
def ip_to_bytes (x : Ipv4Addr) : List Nat := [x.d, x.c, x.b, x.a]

/-- types.rs:101-103 `bytes_to_ip`: reads the four content octets in order
as `a.b.c.d` (called only after the length-4 check in the decoder). -/
def bytes_to_ip (bs : List Nat) : Ipv4Addr :=
  ⟨bs.getD 0 0, bs.getD 1 0, bs.getD 2 0, bs.getD 3 0⟩

/-- types.rs:80-95 `enum Value`. -/
inductive Value
  | Null
  | Oid (v : List Nat)
  | Integer (v : Int)
  | IpAddr (v : Ipv4Addr)
  | Gauge32 (v : Nat)
  | Counter32 (v : Nat)
  | Counter64 (v : Nat)
  | Timeticks (v : TimeTicks)
  | OctetStr (v : List Nat)
  | Opaque (v : List Nat)
  | NoSuchObject
  | NoSuchInstance
  | EndOfMIBView
deriving DecidableEq

/-- types.rs:109-127 `impl Encode for Value`, arm by arm. -/
def encodeValue : Value → List Nat
  | .Null => encTLVp tagNull []
  | .Oid v => encTLVp tagObjectId (oidContent v)
  | .Integer v => encTLVp tagInteger (intBytes v)
  | .IpAddr addr => encTLVp TAG_IPADDR (ip_to_bytes addr)
  | .Gauge32 v => encTLVp TAG_GAUGE32 (uintBytes v)
  | .Counter32 v => encTLVp TAG_COUNTER32 (uintBytes v)
  | .Counter64 v => encTLVp TAG_COUNTER64 (uintBytes v)
  | .Timeticks v => encTLVp TAG_TIMETICKS (uintBytes v.ticks)
  | .OctetStr v => encTLVp tagOctetString v
  | .Opaque v => encTLVp TAG_OPAQUE v
  | .NoSuchObject => encTLVp TAG_NOSUCHOBJECT []
  | .NoSuchInstance => encTLVp TAG_NOSUCHINSTANCE []
  | .EndOfMIBView => encTLVp TAG_ENDOFMIBVIEW []

/-! ## VarBinding, Version, Message envelope types -/

/-- types.rs:243-247 `struct VarBinding`. -/
structure VarBinding where
  name : List Nat
  value : Value
deriving DecidableEq

/-- types.rs:250-252 `VarBinding::new`. -/
def VarBinding.new (name : List Nat) (value : Value) : VarBinding := ⟨name, value⟩

/-- types.rs:254-259 `VarBinding::null_from`. -/
def VarBinding.null_from (name : List Nat) : VarBinding := ⟨name, Value.Null⟩

/-- types.rs:265-275 `impl Encode for VarBinding`: a SEQUENCE of name then
value. -/
def encodeVarBinding (vb : VarBinding) : List Nat :=
  encTLVc tagSequence (encTLVp tagObjectId (oidContent vb.name) ++ encodeValue vb.value)

/-- types.rs:195-200 `enum Version`. -/
inductive Version
  | V1
  | V2C
  | V3
deriving DecidableEq

/-- types.rs:206-214: the INTEGER value a version encodes as. -/
def Version.toInt : Version → Int
  | .V1 => 0
  | .V2C => 1
  | .V3 => 2

/-- Version encoding (`impl Encode for Version`): an INTEGER 0/1/2. -/
def encodeVersion (v : Version) : List Nat :=
  encTLVp tagInteger (intBytes v.toInt)

/-! ## PduTag (pdu.rs) -/

/-- pdu.rs:69-80 `enum PduTag`. -/
inductive PduTag
  | GetRequest
  | GetNextRequest
  | GetResponse
  | SetRequest
  | Trap
  | GetBulkRequest
  | InformRequest
  | TrapV2
  | Report
deriving DecidableEq

/-- pdu.rs:83-95 `PduTag::into_tag`. -/
def PduTag.into_tag : PduTag → Tag
  | .GetRequest => TAG_MSG_GET
  | .GetNextRequest => TAG_MSG_GETNEXT
  | .GetResponse => TAG_MSG_RESPONSE
  | .SetRequest => TAG_MSG_SET
  | .Trap => TAG_MSG_TRAPV1
  | .GetBulkRequest => TAG_MSG_GETBULK
  | .InformRequest => TAG_MSG_INFORM
  | .TrapV2 => TAG_MSG_TRAPV2
  | .Report => TAG_MSG_REPORT

/-- pdu.rs:97-112 `PduTag::from_tag` (`Err(())` becomes `none`). -/
def PduTag.from_tag (tag : Tag) : Option PduTag :=
  if tag = TAG_MSG_GET then some .GetRequest
  else if tag = TAG_MSG_GETNEXT then some .GetNextRequest
  else if tag = TAG_MSG_RESPONSE then some .GetResponse
  else if tag = TAG_MSG_SET then some .SetRequest
  else if tag = TAG_MSG_TRAPV1 then some .Trap
  else if tag = TAG_MSG_GETBULK then some .GetBulkRequest
  else if tag = TAG_MSG_INFORM then some .InformRequest
  else if tag = TAG_MSG_TRAPV2 then some .TrapV2
  else if tag = TAG_MSG_REPORT then some .Report
  else none

/-- The `from_tag` of the superseded draft in lib.rs:319-334, where the arm for
`TAG_MSG_REPORT` was mistyped as a second `TAG_MSG_RESPONSE` arm; in a Rust
match the first arm wins, so the `Report` arm is dead code and the wire tag of Report falls through to `Err(())`. -/
def PduTag.from_tag_draft (tag : Tag) : Option PduTag :=
  if tag = TAG_MSG_GET then some .GetRequest
  else if tag = TAG_MSG_GETNEXT then some .GetNextRequest
  else if tag = TAG_MSG_RESPONSE then some .GetResponse
  else if tag = TAG_MSG_SET then some .SetRequest
  else if tag = TAG_MSG_TRAPV1 then some .Trap
  else if tag = TAG_MSG_GETBULK then some .GetBulkRequest
  else if tag = TAG_MSG_INFORM then some .InformRequest
  else if tag = TAG_MSG_TRAPV2 then some .TrapV2
  else none

/-- The nine `PduTag` constructors, in source order. -/
def pduTags : List PduTag :=
  [.GetRequest, .GetNextRequest, .GetResponse, .SetRequest, .Trap,
   .GetBulkRequest, .InformRequest, .TrapV2, .Report]

/-! ## Pdu (pdu.rs) -/

/-- pdu.rs:115-122 `struct Pdu`. -/
structure Pdu where
  tag : PduTag
  request_id : Int
  err_status : Int
  err_index : Int
  bindings : List VarBinding
deriving DecidableEq

/-- pdu.rs:125-133 `Pdu::new`. -/
def Pdu.new (tag : PduTag) (request_id : Int) : Pdu :=
  ⟨tag, request_id, 0, 0, []⟩

/-- pdu.rs:135-139 `Pdu::with_error`. -/
def Pdu.with_error (p : Pdu) (err_status err_index : Int) : Pdu :=
  { p with err_status := err_status, err_index := err_index }

/-- pdu.rs:141-144 `Pdu::with_bindings` (extends the binding vector). -/
def Pdu.with_bindings (p : Pdu) (bs : List VarBinding) : Pdu :=
  { p with bindings := p.bindings ++ bs }

/-- pdu.rs:146-153 `Pdu::with_null_bindings`. -/
def Pdu.with_null_bindings (p : Pdu) (oids : List (List Nat)) : Pdu :=
  { p with bindings := p.bindings ++ oids.map VarBinding.null_from }

/-- pdu.rs:155-159 `Pdu::set_bulk_repetitions`: stores the two bulk fields
into the `err_status`/`err_index` slots. -/
def Pdu.set_bulk_repetitions (p : Pdu) (num_repeaters max_repetitions : Int) : Pdu :=
  { p with err_status := num_repeaters, err_index := max_repetitions }

/-- pdu.rs:165-171 `Pdu::error`. -/
def Pdu.error (p : Pdu) : Except Int Unit :=
  if p.err_status = 0 then Except.ok () else Except.error p.err_status

/-- Binding list encoding (`Vec<VarBinding>::encode`): a SEQUENCE OF the individual bindings. -/
def encodeBindings (bs : List VarBinding) : List Nat :=
  encTLVc tagSequence (bs.map encodeVarBinding).flatten

/-- pdu.rs:182-194 `impl Encode for Pdu`: the four-field body wrapped in a
sequence whose outer tag is `self.tag.into_tag()` (the context tag of the operation), not the universal SEQUENCE tag. -/
def encodePdu (p : Pdu) : List Nat :=
  encTLVc p.tag.into_tag
    (encTLVp tagInteger (intBytes p.request_id)
      ++ encTLVp tagInteger (intBytes p.err_status)
      ++ encTLVp tagInteger (intBytes p.err_index)
      ++ encodeBindings p.bindings)

/-! ## Message (pdu.rs) -/

/-- pdu.rs:17-22 `struct Message` (the community string is carried as its
UTF-8 octets). -/
structure Message where
  version : Version
  community : List Nat
  data : Pdu
deriving DecidableEq

/-- pdu.rs:25-31 `Message::new`. -/
def Message.new (version : Version) (community : List Nat) (data : Pdu) : Message :=
  ⟨version, community, data⟩

/-- pdu.rs:41-52 `impl Encode for Message`: version, community (implicitly
tagged octet string), Pdu, inside one universal SEQUENCE. -/
def encodeMessage (m : Message) : List Nat :=
  encTLVc tagSequence
    (encodeVersion m.version ++ encTLVp tagOctetString m.community ++ encodePdu m.data)

/-! ## Client (client.rs)

The socket is an external collaborator: operations here produce the
`Message` handed to `encode`/`send`, and the receive half of
`send_and_recv` is modeled over the received datagram bytes. -/

/-- client.rs:10-16 `struct Client` (socket omitted; communities as UTF-8
octets). -/
structure Client where
  version : Version
  current_request : Int
  read_community : List Nat
  write_community : List Nat
deriving DecidableEq

/-- client.rs:82-86 `Client::increment_request`: returns the current id and
bumps the counter. -/
def Client.increment_request (c : Client) : Int × Client :=
  (c.current_request, { c with current_request := c.current_request + 1 })

/-- client.rs:71 (inside `send_and_recv`): every request is wrapped as
`Message::new(self.version, self.read_community, pdu)` — the read community,
for all four operations. -/
def Client.sendMessage (c : Client) (pdu : Pdu) : Message :=
  Message.new c.version c.read_community pdu

/-- client.rs:34-39 `Client::get`: the Message sent and the updated client. -/
def Client.get (c : Client) (oids : List (List Nat)) : Message × Client :=
  match c.increment_request with
  | (request_id, c2) =>
    (c2.sendMessage ((Pdu.new .GetRequest request_id).with_null_bindings oids), c2)

/-- client.rs:41-46 `Client::get_next`. -/
def Client.get_next (c : Client) (oids : List (List Nat)) : Message × Client :=
  match c.increment_request with
  | (request_id, c2) =>
    (c2.sendMessage ((Pdu.new .GetNextRequest request_id).with_null_bindings oids), c2)

/-- client.rs:48-61 `Client::get_bulk`. -/
def Client.get_bulk (c : Client) (non_repeating_oids : List (List Nat))
    (repetitions : Int) (repeating_oids : List (List Nat)) : Message × Client :=
  match c.increment_request with
  | (request_id, c2) =>
    (c2.sendMessage
      ((((Pdu.new .GetBulkRequest request_id).set_bulk_repetitions
          (Int.ofNat non_repeating_oids.length) repetitions).with_null_bindings
            non_repeating_oids).with_null_bindings repeating_oids), c2)

/-- client.rs:63-68 `Client::set`. -/
def Client.set (c : Client) (bindings : List VarBinding) : Message × Client :=
  match c.increment_request with
  | (request_id, c2) =>
    (c2.sendMessage ((Pdu.new .SetRequest request_id).with_bindings bindings), c2)

/-! ## BER primitive decoders (model of the `rasn` BER backend)

Decoders consume a byte list and return the decoded entity together with
the remaining bytes; `none` models a hard decode failure (the `rasn` error
results carry messages the source never inspects). -/

/-- Parse a single-octet identifier into its tag (class and number).  The
constructed bit is dropped, as in `rasn::Tag`. -/
def parseTagByte (b : Nat) : Tag :=
  ⟨match b / 64 % 4 with
    | 0 => TagClass.universal
    | 1 => TagClass.application
    | 2 => TagClass.context
    | _ => TagClass.priv,
   b % 32⟩

/-- Model of `decoder.peek_tag()`: read the leading tag octet without consuming it.
Multi-octet tag numbers (low five bits all set) never occur in this
protocol and are rejected. -/
def peekTag (bs : List Nat) : Option Tag :=
  match bs with
  | [] => none
  | b :: _ => if b % 32 = 31 then none else some (parseTagByte b)

/-- Read BER definite-length octets (short or long form); indefinite
length is rejected. -/
def readLen : List Nat → Option (Nat × List Nat)
  | [] => none
  | b :: rest =>
    if b < 128 then some (b, rest)
    else if b = 128 then none
    else
      let k := b - 128
      if rest.length < k then none
      else some ((rest.take k).foldl (fun a x => a * 256 + x) 0, rest.drop k)

/-- Consume one full tag-length-value triplet: its tag, its content octets,
and the bytes after it. -/
def readTLV (bs : List Nat) : Option (Tag × List Nat × List Nat) :=
  match bs with
  | [] => none
  | b :: rest =>
    if b % 32 = 31 then none
    else
      match readLen rest with
      | none => none
      | some (len, rest2) =>
        if rest2.length < len then none
        else some (parseTagByte b, rest2.take len, rest2.drop len)

/-- Twos-complement value of INTEGER content octets (first octet carries
the sign). -/
def twosCompVal : List Nat → Int
  | [] => 0
  | b :: rest =>
    rest.foldl (fun acc x => acc * 256 + Int.ofNat x)
      (if 128 ≤ b then Int.ofNat b - 256 else Int.ofNat b)

/-- Model of `i32::decode`: non-empty content of at most four octets, twos
complement. -/
def decodeI32 (content : List Nat) : Option Int :=
  if content.length = 0 ∨ 4 < content.length then none
  else some (twosCompVal content)

/-- Model of `u32::decode_with_tag`: a non-negative INTEGER below `2^32`. -/
def decodeU32 (content : List Nat) : Option Nat :=
  match content with
  | [] => none
  | _ :: _ =>
    let v := twosCompVal content
    if 0 ≤ v ∧ v < (2 : Int) ^ 32 then some v.toNat else none

/-- Model of `u64::decode_with_tag`: a non-negative INTEGER below `2^64`. -/
def decodeU64 (content : List Nat) : Option Nat :=
  match content with
  | [] => none
  | _ :: _ =>
    let v := twosCompVal content
    if 0 ≤ v ∧ v < (2 : Int) ^ 64 then some v.toNat else none

/-- Split base-128 groups of OBJECT IDENTIFIER content into sub-identifier
values.  `cur` accumulates the group in progress, `pending` records whether
octets of a group are outstanding (content may not end mid-group and may
not be empty). -/
def parseSubidsAux : List Nat → Nat → Bool → List Nat → Option (List Nat)
  | [], _, pending, acc => if pending then none else some acc.reverse
  | x :: rest, cur, _, acc =>
    if x < 128 then parseSubidsAux rest 0 false ((cur * 128 + x) :: acc)
    else parseSubidsAux rest (cur * 128 + (x - 128)) true acc

/-- Content handling of `ObjectIdentifier::decode`: unpack the leading
`40*a+b` group, then the remaining sub-identifiers. -/
def oidFromContent (content : List Nat) : Option (List Nat) :=
  match parseSubidsAux content 0 true [] with
  | none => none
  | some [] => none
  | some (g :: rest) =>
    if g < 40 then some (0 :: g :: rest)
    else if g < 80 then some (1 :: (g - 40) :: rest)
    else some (2 :: (g - 80) :: rest)

/-- types.rs:129-171 `impl Decode for Value`: peek the tag, dispatch arm by
arm.  The three sentinel arms reproduce the source exactly: each maps its
tag to `Value::Null` (`.map(|_| Value::Null)`), not to the sentinel
constructor. -/
def decodeValue (bs : List Nat) : Option (Value × List Nat) :=
  match peekTag bs with
  | none => none
  | some t =>
    if t = tagNull then
      match readTLV bs with
      | some (_, content, rest) => if content = [] then some (Value.Null, rest) else none
      | none => none
    else if t = tagObjectId then
      match readTLV bs with
      | some (_, content, rest) =>
        match oidFromContent content with
        | some oid => some (Value.Oid oid, rest)
        | none => none
      | none => none
    else if t = tagInteger then
      match readTLV bs with
      | some (_, content, rest) =>
        match decodeI32 content with
        | some v => some (Value.Integer v, rest)
        | none => none
      | none => none
    else if t = TAG_IPADDR then
      match readTLV bs with
      | some (_, content, rest) =>
        if content.length ≠ 4 then none
        else some (Value.IpAddr (bytes_to_ip content), rest)
      | none => none
    else if t = TAG_GAUGE32 then
      match readTLV bs with
      | some (_, content, rest) =>
        match decodeU32 content with
        | some v => some (Value.Gauge32 v, rest)
        | none => none
      | none => none
    else if t = TAG_COUNTER32 then
      match readTLV bs with
      | some (_, content, rest) =>
        match decodeU32 content with
        | some v => some (Value.Counter32 v, rest)
        | none => none
      | none => none
    else if t = TAG_COUNTER64 then
      match readTLV bs with
      | some (_, content, rest) =>
        match decodeU64 content with
        | some v => some (Value.Counter64 v, rest)
        | none => none
      | none => none
    else if t = TAG_TIMETICKS then
      match readTLV bs with
      | some (_, content, rest) =>
        match decodeU32 content with
        | some v => some (Value.Timeticks ⟨v⟩, rest)
        | none => none
      | none => none
    else if t = tagOctetString then
      match readTLV bs with
      | some (_, content, rest) => some (Value.OctetStr content, rest)
      | none => none
    else if t = TAG_OPAQUE then
      match readTLV bs with
      | some (_, content, rest) => some (Value.Opaque content, rest)
      | none => none
    else if t = TAG_NOSUCHOBJECT then
      match readTLV bs with
      | some (_, content, rest) => if content = [] then some (Value.Null, rest) else none
      | none => none
    else if t = TAG_NOSUCHINSTANCE then
      match readTLV bs with
      | some (_, content, rest) => if content = [] then some (Value.Null, rest) else none
      | none => none
    else if t = TAG_ENDOFMIBVIEW then
      match readTLV bs with
      | some (_, content, rest) => if content = [] then some (Value.Null, rest) else none
      | none => none
    else none

/-- types.rs:277-285 `impl Decode for VarBinding`: a SEQUENCE holding an
OBJECT IDENTIFIER then a Value. -/
def decodeVarBinding (bs : List Nat) : Option (VarBinding × List Nat) :=
  match readTLV bs with
  | none => none
  | some (t, content, rest) =>
    if t = tagSequence then
      match readTLV content with
      | none => none
      | some (tn, nameContent, afterName) =>
        if tn = tagObjectId then
          match oidFromContent nameContent with
          | none => none
          | some name =>
            match decodeValue afterName with
            | none => none
            | some (v, _) => some (⟨name, v⟩, rest)
        else none
    else none

/-- Element loop of `decode_sequence_of`: decode bindings until the sequence
content is exhausted (fuel is the content length; each binding consumes at
least one octet). -/
def decodeBindingsAux : Nat → List Nat → Option (List VarBinding)
  | _, [] => some []
  | 0, _ :: _ => none
  | fuel + 1, bs =>
    match decodeVarBinding bs with
    | none => none
    | some (vb, rest) =>
      match decodeBindingsAux fuel rest with
      | none => none
      | some vbs => some (vb :: vbs)

/-- pdu.rs:207 `seq.decode_sequence_of(VarBinding::TAG)`. -/
def decodeBindingsSeq (bs : List Nat) : Option (List VarBinding × List Nat) :=
  match readTLV bs with
  | none => none
  | some (t, content, rest) =>
    if t = tagSequence then
      match decodeBindingsAux content.length content with
      | none => none
      | some vbs => some (vbs, rest)
    else none

/-- Decode one INTEGER-tagged TLV as an `i32`. -/
def readIntTLV (bs : List Nat) : Option (Int × List Nat) :=
  match readTLV bs with
  | none => none
  | some (t, content, rest) =>
    if t = tagInteger then
      match decodeI32 content with
      | none => none
      | some v => some (v, rest)
    else none

/-- pdu.rs:196-217 `impl Decode for Pdu`: peek the outer tag, identify the
operation via `from_tag` (an unrecognized tag is a hard failure), then
decode the sequence body: request id, the two status fields, and the
binding list. -/
def decodePdu (bs : List Nat) : Option (Pdu × List Nat) :=
  match peekTag bs with
  | none => none
  | some pduTag =>
    match PduTag.from_tag pduTag with
    | none => none
    | some tag =>
      match readTLV bs with
      | none => none
      | some (_, content, rest) =>
        match readIntTLV content with
        | none => none
        | some (request_id, c1) =>
          match readIntTLV c1 with
          | none => none
          | some (err_status, c2) =>
            match readIntTLV c2 with
            | none => none
            | some (err_index, c3) =>
              match decodeBindingsSeq c3 with
              | none => none
              | some (bindings, _) =>
                some (⟨tag, request_id, err_status, err_index, bindings⟩, rest)

/-- types.rs:216-233 `impl Decode for Version`: an INTEGER restricted to
0, 1 or 2. -/
def decodeVersionTLV (bs : List Nat) : Option (Version × List Nat) :=
  match readIntTLV bs with
  | none => none
  | some (v, rest) =>
    if v = 0 then some (Version.V1, rest)
    else if v = 1 then some (Version.V2C, rest)
    else if v = 2 then some (Version.V3, rest)
    else none

/-- pdu.rs:54-67 `impl Decode for Message`: a universal SEQUENCE holding
version, community octet string, and the Pdu. -/
def decodeMessage (bs : List Nat) : Option Message :=
  match readTLV bs with
  | none => none
  | some (t, content, _) =>
    if t = tagSequence then
      match decodeVersionTLV content with
      | none => none
      | some (version, c1) =>
        match readTLV c1 with
        | none => none
        | some (tc, community, c2) =>
          if tc = tagOctetString then
            match decodePdu c2 with
            | none => none
            | some (data, _) => some ⟨version, community, data⟩
          else none
    else none

/-- client.rs:75-79, the receive half of `Client::send_and_recv`: decode
the reply datagram and return its binding list unconditionally; a decode
failure maps to error code `-4`.  (The encode/send/receive transport codes
`-1`/`-2`/`-3` involve the socket, an external collaborator.) -/
def sendAndRecvReply (recvBytes : List Nat) : Except Int (List VarBinding) :=
  match decodeMessage recvBytes with
  | none => Except.error (-4)
  | some m => Except.ok m.data.bindings

/-! ## The GET-NEXT walk driver (src/bin/main.rs) -/

/-- Strict lexicographic order on object identifiers (a proper prefix is
smaller), as a boolean so hypotheses stay decidable. -/
def oidLt : List Nat → List Nat → Bool
  | [], [] => false
  | [], _ :: _ => true
  | _ :: _, [] => false
  | a :: as2, b :: bs2 =>
    if a < b then true else if a = b then oidLt as2 bs2 else false

/-- An OID sequence is strictly increasing under `oidLt`. -/
def strictlyIncreasing : List (List Nat) → Bool
  | [] => true
  | [_] => true
  | a :: b :: rest => oidLt a b && strictlyIncreasing (b :: rest)

/-- The GET-NEXT walk loop of main.rs:14-22, as run with its single-OID
seed (`vec![oid!{1,3,6}]`), against a synthetic agent.  The agent is the
finite list `pending` of variable bindings it returns to successive
GET-NEXT calls; once `pending` is exhausted it answers every further call
with `(requested-oid, EndOfMibView)`, as a conforming agent does at the end
of the MIB (the loop inspects only the returned name, so how the decoder
handles the sentinel value is immaterial here).  `lastOid` is the OID
sent in the current request; the loop exits, without emitting, as soon as
the returned name equals it (`while vars.last().name != last_oid`),
otherwise it emits the binding and feeds the returned name into the next
request.  `fuel` bounds the number of loop iterations: `some out` means the
loop halted within `fuel` iterations after emitting exactly `out`. -/
def walkDriver : Nat → List Nat → List VarBinding → Option (List VarBinding)
  | 0, _, _ => none
  | fuel + 1, lastOid, pending =>
    match pending with
    | [] => some []
    | vb :: rest =>
      if vb.name = lastOid then some []
      else
        match walkDriver fuel vb.name rest with
        | some out => some (vb :: out)
        | none => none

/-! ## Shared concrete exchange material -/

/-- The community string "public" as UTF-8 octets. -/
def pubBytes : List Nat := [112, 117, 98, 108, 105, 99]

/-- The community string "private" as UTF-8 octets. -/
def privBytes : List Nat := [112, 114, 105, 118, 97, 116, 101]

/-- A concrete client whose read and write communities differ. -/
def exampleClient : Client := ⟨Version.V2C, 0, pubBytes, privBytes⟩

/-- A response Message whose Pdu carries errorStatus 5 and errorIndex 2. -/
def errStatusMsg : Message :=
  Message.new Version.V2C pubBytes
    (((Pdu.new PduTag.GetResponse 7).with_error 5 2).with_bindings
      [⟨[1, 3, 6, 1], Value.Integer 1⟩])

/-- The wire bytes of `errStatusMsg`. -/
def errStatusBytes : List Nat := encodeMessage errStatusMsg

/-- A response Message whose Pdu is tagged `Report`, not `GetResponse`. -/
def reportMsg : Message := Message.new Version.V2C pubBytes (Pdu.new PduTag.Report 1)

/-- The wire bytes of `reportMsg`. -/
def reportBytes : List Nat := encodeMessage reportMsg

/-- A response Message whose Pdu is tagged `GetRequest`, not `GetResponse`. -/
def getReqMsg : Message :=
  Message.new Version.V2C pubBytes
    ((Pdu.new PduTag.GetRequest 2).with_bindings [⟨[1, 3, 6, 1], Value.Counter32 9⟩])

/-- The wire bytes of `getReqMsg`. -/
def getReqBytes : List Nat := encodeMessage getReqMsg

/-! ## Helper lemmas -/

/-- The order `oidLt` is irreflexive. -/
theorem oidLt_irrefl (a : List Nat) : oidLt a a = false := by
  induction a with
  | nil => rfl
  | cons x xs ih => simp [oidLt, ih]

/-- A strictly larger OID is in particular a different OID. -/
theorem oidLt_ne {a b : List Nat} (h : oidLt a b = true) : b ≠ a := by
  intro e
  subst e
  rw [oidLt_irrefl] at h
  exact Bool.false_ne_true h

/-! ## Sanity checks against the test vectors of the repository itself -/

/-- The eleven reference value encodings asserted by the test modules of
types.rs and lib.rs. -/
theorem value_reference_encodings :
    encodeValue Value.Null = [5, 0]
    ∧ encodeValue (Value.Oid [1, 3, 6, 1, 2, 1]) = [6, 5, 43, 6, 1, 2, 1]
    ∧ encodeValue (Value.Integer 5) = [2, 1, 5]
    ∧ encodeValue (Value.IpAddr ⟨10, 0, 0, 1⟩) = [64, 4, 1, 0, 0, 10]
    ∧ encodeValue (Value.Gauge32 128) = [66, 2, 0, 128]
    ∧ encodeValue (Value.Counter32 1) = [65, 1, 1]
    ∧ encodeValue (Value.Counter64 (2 ^ 32)) = [70, 5, 1, 0, 0, 0, 0]
    ∧ encodeValue (Value.Timeticks ⟨1234⟩) = [67, 2, 4, 210]
    ∧ encodeValue (Value.OctetStr [3, 4, 5]) = [4, 3, 3, 4, 5]
    ∧ encodeValue (Value.Opaque [3, 4, 5]) = [68, 3, 3, 4, 5]
    ∧ encodeValue Value.NoSuchObject = [128, 0]
    ∧ encodeValue Value.NoSuchInstance = [129, 0]
    ∧ encodeValue Value.EndOfMIBView = [130, 0] := by
  decide

/-- The Pdu and Message reference encodings asserted by the test module of
pdu.rs. -/
theorem envelope_reference_encodings :
    encodeVarBinding ⟨[1, 2, 3, 4], Value.Null⟩ = [48, 7, 6, 3, 42, 3, 4, 5, 0]
    ∧ encodePdu ((Pdu.new PduTag.GetRequest 0).with_null_bindings [[1, 2, 3]])
        = [160, 19, 2, 1, 0, 2, 1, 0, 2, 1, 0, 48, 8, 48, 6, 6, 2, 42, 3, 5, 0]
    ∧ encodePdu ((Pdu.new PduTag.GetRequest 0).with_bindings [⟨[1, 2, 3], Value.Integer 5⟩])
        = [160, 20, 2, 1, 0, 2, 1, 0, 2, 1, 0, 48, 9, 48, 7, 6, 2, 42, 3, 2, 1, 5]
    ∧ encodeMessage (Message.new Version.V3 pubBytes (Pdu.new PduTag.GetNextRequest 1))
        = [48, 24, 2, 1, 2, 4, 6, 112, 117, 98, 108, 105, 99,
           161, 11, 2, 1, 1, 2, 1, 0, 2, 1, 0, 48, 0] := by
  decide

/-- In the superseded lib.rs draft, the `Report` wire tag decodes to
nothing (its match arm is dead code); all other operations still round
trip.  The authoritative pdu.rs copy, settled in the claim below, has no
such gap. -/
theorem from_tag_draft_rejects_report :
    PduTag.from_tag_draft (PduTag.into_tag PduTag.Report) = none
    ∧ PduTag.from_tag_draft TAG_MSG_RESPONSE = some PduTag.GetResponse := by
  decide

/-! ## Claims -/

/-- Claim C1: for a synthetic agent that returns a strictly increasing
sequence of OIDs for successive GET-NEXT calls and finally reports end of
MIB (answering with the requested name once `pending` is exhausted), the
GET-NEXT walk loop of main.rs halts within `pending.length + 1` calls and
emits exactly the agent sequence, each entry once. -/
theorem c1_walk_emits_and_halts (seed : List Nat) (pending : List VarBinding)
    (h : strictlyIncreasing (seed :: pending.map VarBinding.name) = true) :
    walkDriver (pending.length + 1) seed pending = some pending := by
  induction pending generalizing seed with
  | nil => rfl
  | cons vb rest ih =>
    have hand : (oidLt seed vb.name
        && strictlyIncreasing (vb.name :: rest.map VarBinding.name)) = true := h
    rw [Bool.and_eq_true] at hand
    obtain ⟨h1, h2⟩ := hand
    have hne : vb.name ≠ seed := oidLt_ne h1
    have ihh := ih vb.name h2
    show walkDriver (rest.length + 1 + 1) seed (vb :: rest) = some (vb :: rest)
    rw [show walkDriver (rest.length + 1 + 1) seed (vb :: rest)
          = (if vb.name = seed then some []
             else
               match walkDriver (rest.length + 1) vb.name rest with
               | some out => some (vb :: out)
               | none => none) from rfl]
    rw [if_neg hne, ihh]

/-- Witness for C1 at a concrete three-step agent. -/
theorem c1_witness :
    strictlyIncreasing ([1, 3, 6] ::
        ([⟨[1, 3, 6, 1], Value.Integer 1⟩, ⟨[1, 3, 6, 2], Value.Null⟩]
          : List VarBinding).map VarBinding.name) = true
    ∧ walkDriver 3 [1, 3, 6] [⟨[1, 3, 6, 1], Value.Integer 1⟩, ⟨[1, 3, 6, 2], Value.Null⟩]
        = some [⟨[1, 3, 6, 1], Value.Integer 1⟩, ⟨[1, 3, 6, 2], Value.Null⟩] :=
  ⟨by decide,
   c1_walk_emits_and_halts [1, 3, 6]
     [⟨[1, 3, 6, 1], Value.Integer 1⟩, ⟨[1, 3, 6, 2], Value.Null⟩] (by decide)⟩

/-- Claim C2 (code bug): the sentinels encode to their reference bytes but
do not decode back to themselves — the sentinel arms of the decoder rebuild
`Value::Null` — and the IpAddress encoder/decoder pair is mutually
inconsistent, so `decode(encode(v)) = v` fails for these variants while
holding for the others sampled here. -/
theorem c2_roundtrip_fails_on_sentinels :
    encodeValue Value.NoSuchObject = [128, 0]
    ∧ encodeValue Value.NoSuchInstance = [129, 0]
    ∧ encodeValue Value.EndOfMIBView = [130, 0]
    ∧ decodeValue (encodeValue Value.NoSuchObject) = some (Value.Null, [])
    ∧ decodeValue (encodeValue Value.NoSuchInstance) = some (Value.Null, [])
    ∧ decodeValue (encodeValue Value.EndOfMIBView) = some (Value.Null, [])
    ∧ decodeValue (encodeValue (Value.IpAddr ⟨10, 0, 0, 1⟩))
        = some (Value.IpAddr ⟨1, 0, 0, 10⟩, [])
    ∧ decodeValue (encodeValue Value.Null) = some (Value.Null, [])
    ∧ decodeValue (encodeValue (Value.Oid [1, 3, 6, 1, 2, 1]))
        = some (Value.Oid [1, 3, 6, 1, 2, 1], [])
    ∧ decodeValue (encodeValue (Value.Integer 5)) = some (Value.Integer 5, [])
    ∧ decodeValue (encodeValue (Value.Gauge32 128)) = some (Value.Gauge32 128, [])
    ∧ decodeValue (encodeValue (Value.Counter64 (2 ^ 32)))
        = some (Value.Counter64 (2 ^ 32), [])
    ∧ decodeValue (encodeValue (Value.OctetStr [3, 4, 5]))
        = some (Value.OctetStr [3, 4, 5], []) := by
  decide

/-- Claim C3 (amended): `Pdu::error` maps errorStatus 0 to success and a
nonzero errorStatus to an error carrying the status alone (no index); but
the receive path of the client never consults it — every successfully decoded
reply is returned as `Ok(bindings)` whatever its errorStatus. -/
theorem c3_error_reporting_amended :
    (∀ bs : List Nat, ∀ m : Message, decodeMessage bs = some m →
      sendAndRecvReply bs = Except.ok m.data.bindings)
    ∧ (∀ p : Pdu, p.err_status = 0 → p.error = Except.ok ())
    ∧ (∀ p : Pdu, p.err_status ≠ 0 → p.error = Except.error p.err_status) := by
  refine ⟨fun bs m h => ?_, fun p h => ?_, fun p h => ?_⟩
  · simp [sendAndRecvReply, h]
  · simp [Pdu.error, h]
  · simp [Pdu.error, h]

/-- Counterexample to C3 as stated: a decoded reply with errorStatus 5 and
errorIndex 2 is answered to the caller with `Ok` and the bindings — no
application-level error value is produced. -/
theorem c3_counterexample :
    decodeMessage errStatusBytes = some errStatusMsg
    ∧ errStatusMsg.data.err_status = 5
    ∧ errStatusMsg.data.err_index = 2
    ∧ sendAndRecvReply errStatusBytes = Except.ok [⟨[1, 3, 6, 1], Value.Integer 1⟩]
    ∧ (sendAndRecvReply errStatusBytes).isOk = true :=
  ⟨by decide, rfl, rfl, rfl, rfl⟩

/-- Witness for C3 at the concrete nonzero-status exchange. -/
theorem c3_witness :
    sendAndRecvReply errStatusBytes = Except.ok errStatusMsg.data.bindings
    ∧ Pdu.error (Pdu.new PduTag.GetRequest 0) = Except.ok ()
    ∧ Pdu.error ((Pdu.new PduTag.GetRequest 0).with_error 5 2) = Except.error 5 :=
  ⟨c3_error_reporting_amended.1 errStatusBytes errStatusMsg (by decide),
   c3_error_reporting_amended.2.1 (Pdu.new PduTag.GetRequest 0) rfl,
   c3_error_reporting_amended.2.2 ((Pdu.new PduTag.GetRequest 0).with_error 5 2)
     (by decide)⟩

/-- Claim C4 (amended): `IpAddr` encodes as a TLV with tag 64 and length 4,
but its content is the four address octets in reversed order (the
native-endian reinterpretation in `ip_to_bytes` on the little-endian host
the tests fix), matching the concrete reference bytes of the spec; and an
IpAddress TLV whose content length is not 4 is a hard decode failure. -/
theorem c4_ipaddr_encoding_amended :
    (∀ x : Ipv4Addr, encodeValue (Value.IpAddr x) = [64, 4, x.d, x.c, x.b, x.a])
    ∧ encodeValue (Value.IpAddr ⟨10, 0, 0, 1⟩) = [64, 4, 1, 0, 0, 10]
    ∧ (∀ bs : List Nat, bs.length ≠ 4 → bs.length < 128 →
        decodeValue (64 :: bs.length :: bs) = none) := by
  refine ⟨fun x => rfl, by decide, fun bs h4 h128 => ?_⟩
  have hlen : readLen (bs.length :: bs) = some (bs.length, bs) := by
    simp [readLen, h128]
  have htlv : readTLV (64 :: bs.length :: bs) = some (TAG_IPADDR, bs, []) := by
    simp [readTLV, hlen, TAG_IPADDR, Tag.new, parseTagByte]
  simp [decodeValue, peekTag, parseTagByte, htlv, h4, tagNull, tagObjectId,
    tagInteger, TAG_IPADDR, Tag.new]

/-- Witness for C4: the length-guard rejects a five-octet IpAddress. -/
theorem c4_witness :
    decodeValue (64 :: List.length [1, 2, 3, 4, 5] :: [1, 2, 3, 4, 5]) = none :=
  c4_ipaddr_encoding_amended.2.2 [1, 2, 3, 4, 5] (by decide) (by decide)

/-- Counterexample to C4 as stated: the encoded content is not the address
octets in network order (most-significant first), which for 10.0.0.1 would
be `[64, 4, 10, 0, 0, 1]`. -/
theorem c4_counterexample :
    encodeValue (Value.IpAddr ⟨10, 0, 0, 1⟩) = [64, 4, 1, 0, 0, 10]
    ∧ encodeValue (Value.IpAddr ⟨10, 0, 0, 1⟩) ≠ [64, 4, 10, 0, 0, 1] := by
  decide

/-- Claim C5: the pdu.rs operation-tag mapping is a total bijection over
the nine operations — `from_tag` inverts `into_tag` on every variant, the
nine wire tags are pairwise distinct, the nine-element enumeration is
exhaustive, and every wire tag is a context-class tag numbered 0 to 8. -/
theorem c5_pdu_tag_bijection :
    (∀ t : PduTag, PduTag.from_tag (PduTag.into_tag t) = some t)
    ∧ (pduTags.map PduTag.into_tag).Nodup
    ∧ (∀ t : PduTag, t ∈ pduTags)
    ∧ (∀ t : PduTag, (PduTag.into_tag t).cls = TagClass.context
        ∧ (PduTag.into_tag t).num ≤ 8) := by
  refine ⟨fun t => ?_, by decide, fun t => ?_, fun t => ?_⟩
  · cases t <;> rfl
  · cases t <;> decide
  · cases t <;> exact ⟨rfl, by decide⟩

/-- Claim C6 (amended): every operation, `set` included, wraps its Pdu in a
Message carrying the read community of the client; the write community is never
consulted. -/
theorem c6_all_ops_use_read_community (c : Client) (oids : List (List Nat))
    (bindings : List VarBinding) (nonRep rep : List (List Nat)) (reps : Int) :
    ((c.set bindings).1).community = c.read_community
    ∧ ((c.get oids).1).community = c.read_community
    ∧ ((c.get_next oids).1).community = c.read_community
    ∧ ((c.get_bulk nonRep reps rep).1).community = c.read_community :=
  ⟨rfl, rfl, rfl, rfl⟩

/-- Counterexample to C6 as stated: with distinct communities, the Message
built by `set` carries the read community, not the write community. -/
theorem c6_counterexample :
    ((exampleClient.set []).1).community = exampleClient.read_community
    ∧ ((exampleClient.set []).1).community ≠ exampleClient.write_community := by
  decide

/-- Claim C7: `get_bulk` builds a GetBulkRequest Pdu whose bindings are the
non-repeating OIDs followed by the repeating OIDs, null-valued and in input
order, with the second field set to the non-repeater count and the third to
the repetition count; `set_bulk_repetitions` overwrites both overloaded
slots regardless of previously set errorStatus/errorIndex values, and the
encoded Pdu carries them as its second and third INTEGER fields. -/
theorem c7_get_bulk_construction (c : Client) (nonRep : List (List Nat)) (reps : Int)
    (rep : List (List Nat)) (p : Pdu) (e1 e2 n m : Int) :
    ((c.get_bulk nonRep reps rep).1).data.tag = PduTag.GetBulkRequest
    ∧ ((c.get_bulk nonRep reps rep).1).data.bindings
        = (nonRep ++ rep).map VarBinding.null_from
    ∧ ((c.get_bulk nonRep reps rep).1).data.err_status = Int.ofNat nonRep.length
    ∧ ((c.get_bulk nonRep reps rep).1).data.err_index = reps
    ∧ (p.set_bulk_repetitions n m).err_status = n
    ∧ (p.set_bulk_repetitions n m).err_index = m
    ∧ (p.with_error e1 e2).set_bulk_repetitions n m = p.set_bulk_repetitions n m
    ∧ encodePdu (((Pdu.new PduTag.GetBulkRequest 0).with_error 9 7).set_bulk_repetitions 1 2)
        = [165, 11, 2, 1, 0, 2, 1, 1, 2, 1, 2, 48, 0] := by
  refine ⟨rfl, ?_, rfl, rfl, rfl, rfl, rfl, by decide⟩
  simp [Client.get_bulk, Client.increment_request, Client.sendMessage, Message.new,
    Pdu.new, Pdu.set_bulk_repetitions, Pdu.with_null_bindings, List.map_append]

/-- Claim C8: `Pdu::new` zero-initializes the status and index fields and
the binding list, and the encoder wraps the four-field body in a sequence
whose outer tag octet is the constructed context tag of the operation
(`160 + n`), never the universal SEQUENCE octet 48; concretely,
`encode(Pdu::new(GetRequest, 0))` yields the reference bytes. -/
theorem c8_pdu_new_and_outer_tag (t : PduTag) (r : Int) (p : Pdu) :
    (Pdu.new t r).tag = t
    ∧ (Pdu.new t r).request_id = r
    ∧ (Pdu.new t r).err_status = 0
    ∧ (Pdu.new t r).err_index = 0
    ∧ (Pdu.new t r).bindings = []
    ∧ (encodePdu p).head? = some (128 + 32 + (PduTag.into_tag p.tag).num)
    ∧ (encodePdu p).head? ≠ some 48
    ∧ encodePdu (Pdu.new PduTag.GetRequest 0)
        = [160, 11, 2, 1, 0, 2, 1, 0, 2, 1, 0, 48, 0] := by
  refine ⟨rfl, rfl, rfl, rfl, rfl, ?_, ?_, by decide⟩
  · rcases p with ⟨pt, rid, es, ei, bnd⟩
    cases pt <;> rfl
  · rcases p with ⟨pt, rid, es, ei, bnd⟩
    cases pt <;> simp [encodePdu, encTLVc, PduTag.into_tag, TagClass.base,
      TAG_MSG_GET, TAG_MSG_GETNEXT, TAG_MSG_RESPONSE, TAG_MSG_SET, TAG_MSG_TRAPV1,
      TAG_MSG_GETBULK, TAG_MSG_INFORM, TAG_MSG_TRAPV2, TAG_MSG_REPORT, Tag.new]

/-- Claim C9: the receive path of the client returns the binding list of
the decoded reply whatever operation tag the reply Pdu carries and whatever its
request id — concretely, replies tagged `Report` and `GetRequest` decode
successfully and their bindings are returned as the result. -/
theorem c9_reply_tag_not_checked :
    (∀ bs : List Nat, ∀ m : Message, decodeMessage bs = some m →
      sendAndRecvReply bs = Except.ok m.data.bindings)
    ∧ decodeMessage reportBytes = some reportMsg
    ∧ reportMsg.data.tag = PduTag.Report
    ∧ sendAndRecvReply reportBytes = Except.ok []
    ∧ decodeMessage getReqBytes = some getReqMsg
    ∧ getReqMsg.data.tag = PduTag.GetRequest
    ∧ sendAndRecvReply getReqBytes = Except.ok [⟨[1, 3, 6, 1], Value.Counter32 9⟩] := by
  refine ⟨fun bs m h => ?_, by decide, rfl, rfl, by decide, rfl, rfl⟩
  simp [sendAndRecvReply, h]

/-- Witness for C9 at the Report-tagged reply. -/
theorem c9_witness :
    sendAndRecvReply reportBytes = Except.ok reportMsg.data.bindings :=
  c9_reply_tag_not_checked.1 reportBytes reportMsg (by decide)

/-- Claim C10: the builder methods are frame-preserving — `with_bindings`
and `with_null_bindings` only append to the binding list, leaving the tag,
request id and both status fields unchanged, and `set_bulk_repetitions`
only assigns the two status slots, leaving tag, request id and bindings
unchanged. -/
theorem c10_builders_frame (p : Pdu) (bs : List VarBinding)
    (oids : List (List Nat)) (n m : Int) :
    (p.with_bindings bs).tag = p.tag
    ∧ (p.with_bindings bs).request_id = p.request_id
    ∧ (p.with_bindings bs).err_status = p.err_status
    ∧ (p.with_bindings bs).err_index = p.err_index
    ∧ (p.with_bindings bs).bindings = p.bindings ++ bs
    ∧ (p.with_null_bindings oids).tag = p.tag
    ∧ (p.with_null_bindings oids).request_id = p.request_id
    ∧ (p.with_null_bindings oids).err_status = p.err_status
    ∧ (p.with_null_bindings oids).err_index = p.err_index
    ∧ (p.with_null_bindings oids).bindings = p.bindings ++ oids.map VarBinding.null_from
    ∧ (p.set_bulk_repetitions n m).tag = p.tag
    ∧ (p.set_bulk_repetitions n m).request_id = p.request_id
    ∧ (p.set_bulk_repetitions n m).bindings = p.bindings
    ∧ (p.set_bulk_repetitions n m).err_status = n
    ∧ (p.set_bulk_repetitions n m).err_index = m :=
  ⟨rfl, rfl, rfl, rfl, rfl, rfl, rfl, rfl, rfl, rfl, rfl, rfl, rfl, rfl, rfl⟩

end Rsnmp
